import Mathlib

/-
Verification of the MIMIC-to-CLIF reconciliation pipeline.

This file is a shallow embedding of the deduplication, pivot and
carry-forward logic of the repository:
  * src/utils.py               (construct_mapper_dict, find_duplicates)
  * src/tables/respiratory_support.py
        (RESP_DEVICE_RANK, none_value_rows_removed, duplicates_removed,
         pivoted_wider_and_coalesced, tracheostomy_imputed)
  * src/tables/medication_admin_continuous.py
        (are_doses_close, drop_shorter_action_name, the dedup section of main)

Tables are lists of (pandas index, row) pairs; missing values (NaN / None)
are `Option.none`; a Python dict is an association list looked up with
last-binding-wins semantics (`dget`), matching dict construction by
repeated assignment.  Fallible code (KeyError, ValueError) returns
`Except String`.
-/

set_option maxHeartbeats 1000000

/-- A cell value of an event table: chartevents values are strings,
procedureevents values are numeric. -/
inductive Val where
  | str (s : String)
  | num (q : Rat)
deriving DecidableEq, Repr

/-- A Python dict with `Option String` keys and values (a `None` value
models Python `None`). -/
abbrev Dict := List (Option String × Option String)

/-- Lookup in a Python dict built by `dict(zip(...))` plus assignments:
the last binding of a key wins. -/
def dget (d : Dict) (k : Option String) : Option (Option String) :=
  (d.reverse.find? (fun p => decide (p.1 = k))).map (fun p => p.2)

/-- Python `str.strip()`: remove leading and trailing whitespace
(modelled on the character list so that it evaluates by `decide`). -/
def stripped (s : String) : String :=
  String.mk (((s.data.dropWhile Char.isWhitespace).reverse.dropWhile
    Char.isWhitespace).reverse)

/-- One row of a mapping CSV (src/utils.py `construct_mapper_dict` input):
the `itemid` and `decision` columns plus the selected key/value columns.
Cells may be NaN (`none`). -/
structure MappingRow where
  itemid : Option String
  key : Option String
  value : Option String
  decision : Option String
deriving DecidableEq, Repr

/-- Default `excluded_labels` of `construct_mapper_dict` (src/utils.py:244). -/
def CONSTRUCT_MAPPER_EXCLUDED_LABELS : List String :=
  ["NO MAPPING", "UNSURE", "MAPPED ELSEWHERE", "ALREADY MAPPED", "NOT AVAILABLE"]

/-- src/utils.py:237-270 `construct_mapper_dict`.  `key_col`, `value_col`
and `decision_col` are column selectors; `itemid_in_cols` / `decision_in_cols`
model the `"itemid" in mapping_df.columns` / `decision_col in mapping_df.columns`
checks.  Rows whose itemid is excluded or whose decision label is excluded are
filtered out; then the dict is built, values equal to "NO MAPPING" are replaced
by None, and with `map_none_to_none` the bindings None↦None and "None"↦None are
added (assignments appended last, hence winning under `dget`). -/
def construct_mapper_dict (mapping_df : List MappingRow)
    (key_col value_col : MappingRow → Option String)
    (map_none_to_none : Bool)
    (excluded_item_ids : List String)
    (itemid_in_cols : Bool)
    (decision_col : MappingRow → Option String)
    (decision_in_cols : Bool)
    (excluded_labels : List String) : Dict :=
  let df1 := if itemid_in_cols then
      mapping_df.filter (fun r => !(match r.itemid with
        | some v => decide (v ∈ excluded_item_ids)
        | none => false))
    else mapping_df
  let df2 := if decision_in_cols then
      df1.filter (fun r => !(match decision_col r with
        | some v => decide (v ∈ excluded_labels)
        | none => false))
    else df1
  let mapper_dict := df2.map (fun r => (key_col r, value_col r))
  -- the in-place replacement loop: values equal to "NO MAPPING" become None
  let mapper_dict2 := mapper_dict.map
    (fun p => if p.2 = some "NO MAPPING" then (p.1, none) else p)
  if map_none_to_none then mapper_dict2 ++ [(none, none), (some "None", none)]
  else mapper_dict2

/-- One raw MIMIC event row as used by the respiratory-support builder
(columns itemid, hadm_id, stay_id, time, value, variable). -/
structure Event where
  hadm_id : Nat
  stay_id : Nat
  time : Nat
  itemid : Nat
  value : Option Val
  variable_col : Option String
deriving DecidableEq, Repr

/-- A pandas DataFrame of events: list of (index label, row). -/
abbrev Table := List (Nat × Event)

/-- The duplicate key of src/utils.py:339 `find_duplicates` default columns
`["hadm_id", "time", "itemid"]`. -/
def keyOf (e : Event) : Nat × Nat × Nat := (e.hadm_id, e.time, e.itemid)

/-- src/utils.py:339-347 `find_duplicates` with the default columns:
rows whose (hadm_id, time, itemid) key occurs at least twice
(`duplicated(keep=False)`). -/
def find_duplicates (df : Table) : Table :=
  df.filter (fun p => decide (2 ≤ df.countP (fun q => decide (keyOf q.2 = keyOf p.2))))

/-- src/tables/respiratory_support.py:129-144 `none_value_rows_removed`:
rows whose value is the string "None" are dropped, but only when they all
have itemid 226732 (and there is at least one, since `nunique() == 1`);
otherwise a ValueError is raised.  The `and` short-circuits, so an input
with no "None" rows also raises. -/
def none_value_rows_removed (extracted : Table) : Except String Table :=
  let mask := fun (p : Nat × Event) => decide (p.2.value = some (Val.str "None"))
  let none_value_rows := extracted.filter mask
  if decide ((none_value_rows.map (fun p => p.2.itemid)).dedup.length = 1)
      && decide ((none_value_rows.map (fun p => p.2.itemid)).head? = some 226732) then
    Except.ok (extracted.filter (fun p => !(mask p)))
  else
    Except.error "ValueError"

/-- src/tables/respiratory_support.py:24-34 `RESP_DEVICE_RANK`. -/
def RESP_DEVICE_RANK : List String :=
  ["IMV", "NIPPV", "CPAP", "High Flow NC", "Face Mask", "Trach Collar",
   "Nasal Cannula", "Room Air", "Other"]

/-- The device-selector duplicate rows: `resp_duplicates.query("itemid == 226732")`
(src/tables/respiratory_support.py:163-165). -/
def devDupRows (df : Table) : Table :=
  (find_duplicates df).filter (fun p => decide (p.2.itemid = 226732))

/-- Guard for the `.apply(lambda x: resp_device_mapper[x.strip()] if pd.notna(x) else None)`
column assignment (line 166-168): a non-null string value must be a key of the
dict (else Python raises KeyError), and a non-null non-string value would have
no `.strip()` (AttributeError). -/
def deviceApplyOk (dm : Dict) (rows : Table) : Bool :=
  rows.all (fun p =>
    match p.2.value with
    | none => true
    | some (Val.str s) => (dget dm (some (stripped s))).isSome
    | some (Val.num _) => false)

/-- The per-row device-category assignment of lines 166-168: a NaN value or
a value mapped to None yields no category (the row is dropped by the
following `dropna`); a mapped string value is tagged with its category. -/
def catOf (dm : Dict) (p : Nat × Event) : Option (Nat × Event × String) :=
  match p.2.value with
  | some (Val.str s) =>
    (match dget dm (some (stripped s)) with
     | some (some c) => some (p.1, p.2, c)
     | _ => none)
  | _ => none

/-- Lines 166-169: assign `device_category` from the value via the device dict
and `dropna(subset="device_category")` (a value mapped to None is dropped,
as is a NaN value). -/
def withCategory (dm : Dict) (rows : Table) : List (Nat × Event × String) :=
  rows.filterMap (catOf dm)

/-- Guard for `RESP_DEVICE_RANK.index(x.strip())` (line 170-172): Python
`list.index` raises ValueError when the stripped category is not in the list. -/
def rankApplyOk (l : List (Nat × Event × String)) : Bool :=
  l.all (fun t => decide (stripped t.2.2 ∈ RESP_DEVICE_RANK))

/-- Lines 170-172: the `rank` column, `RESP_DEVICE_RANK.index(category.strip())`. -/
def withRank (dm : Dict) (rows : Table) : List (Nat × Event × Nat) :=
  (withCategory dm rows).map
    (fun t => (t.1, t.2.1, List.indexOf (stripped t.2.2) RESP_DEVICE_RANK))

/-- One groupby group: the ranked device-duplicate rows of a given
(hadm_id, time, itemid) key, in dataframe order. -/
def groupRows (l : List (Nat × Event × Nat)) (k : Nat × Nat × Nat) :
    List (Nat × Event × Nat) :=
  l.filter (fun t => decide (keyOf t.2.1 = k))

/-- Pandas `groupby(...)["rank"].idxmin()` for one group: the first element
attaining the minimal rank (ties keep the earlier row). -/
def idxminTriple : List (Nat × Event × Nat) → Option (Nat × Event × Nat)
  | [] => none
  | t :: rest =>
    match idxminTriple rest with
    | none => some t
    | some u => if u.2.2 < t.2.2 then some u else some t

/-- Lines 175-177 `top_ranked_device_indices`: per (hadm_id, time, itemid)
group, the index of the first minimal-rank row. -/
def topRankedIndices (l : List (Nat × Event × Nat)) : List Nat :=
  ((l.map (fun t => keyOf t.2.1)).dedup).filterMap
    (fun k => (idxminTriple (groupRows l k)).map (fun t => t.1))

/-- Lines 179-181 `lower_ranked_device_indices`: ranked duplicate indices that
are not top-ranked (`index.difference`). -/
def lowerRankedIndices (l : List (Nat × Event × Nat)) : List Nat :=
  (l.map (fun t => t.1)).filter (fun i => decide (i ∉ topRankedIndices l))

/-- Lines 195-197 `drop_duplicates(subset=["hadm_id","time","itemid"])`
(default `keep="first"`): keep a row when its key has not been seen before. -/
def drop_duplicates_first (seen : List (Nat × Nat × Nat)) : Table → Table
  | [] => []
  | p :: rest =>
    if keyOf p.2 ∈ seen then drop_duplicates_first seen rest
    else p :: drop_duplicates_first (keyOf p.2 :: seen) rest

/-- Lines 200-202: `resp_events_clean["variable"] = itemid.map(resp_mapper)`.
`Series.map` with a dict maps missing keys to NaN, so the mapper is a total
function into Option. -/
def setVariable (m : Nat → Option String) (e : Event) : Event :=
  { e with variable_col := m e.itemid }

/-- Line 183 `resp_events_clean`: the input with the lower-ranked duplicate
device rows dropped. -/
def respClean1 (df : Table) (dm : Dict) : Table :=
  df.filter (fun p => decide (p.1 ∉ lowerRankedIndices (withRank dm (devDupRows df))))

/-- Line 185 `dropna(subset="value")`. -/
def respClean2 (df : Table) (dm : Dict) : Table :=
  (respClean1 df dm).filter (fun p => p.2.value.isSome)

/-- Lines 191-193 `setting_duplicate_indices_to_drop`: still-duplicated rows
of stay 36123037. -/
def settingDupIndices (df : Table) (dm : Dict) : List Nat :=
  ((find_duplicates (respClean2 df dm)).filter
    (fun p => decide (p.2.stay_id = 36123037))).map (fun p => p.1)

/-- Line 194: drop those indices. -/
def respClean3 (df : Table) (dm : Dict) : Table :=
  (respClean2 df dm).filter (fun p => decide (p.1 ∉ settingDupIndices df dm))

/-- Lines 195-197: `drop_duplicates(subset=["hadm_id","time","itemid"])`. -/
def respClean4 (df : Table) (dm : Dict) : Table :=
  drop_duplicates_first [] (respClean3 df dm)

/-- src/tables/respiratory_support.py:146-203 `duplicates_removed`.
Stage 1 resolves device duplicates by keeping, per (hadm_id, time, itemid)
group, only the first minimal-rank row; then rows with NaN value are dropped.
Stage 2 drops duplicated rows of stay 36123037, then `drop_duplicates` keeps
the first row of each remaining duplicate key.  Finally the `variable` column
is (re)assigned from the itemid.  The two guards model the KeyError /
ValueError the device-category and rank lookups can raise. -/
def duplicates_removed (fio2_set_cleaned : Table)
    (resp_mapper : Nat → Option String) (resp_device_mapper : Dict) :
    Except String Table :=
  if deviceApplyOk resp_device_mapper (devDupRows fio2_set_cleaned) then
    if rankApplyOk (withCategory resp_device_mapper (devDupRows fio2_set_cleaned)) then
      Except.ok ((respClean4 fio2_set_cleaned resp_device_mapper).map
        (fun p => (p.1, setVariable resp_mapper p.2)))
    else Except.error "ValueError"
  else Except.error "KeyError"

/-- One row of the wide pivoted table (src/tables/respiratory_support.py:221-227):
index (hadm_id, time) and one cell per itemid column present for that key. -/
structure PivotRow where
  hadm_id : Nat
  time : Nat
  cols : List (Nat × Option Val)
deriving DecidableEq, Repr

/-- Whether the pivot input still contains two or more rows sharing the same
(hadm_id, time, itemid): the condition under which `DataFrame.pivot` raises. -/
def hasDupKeys (df : Table) : Bool :=
  df.any (fun p => decide (2 ≤ df.countP (fun q => decide (keyOf q.2 = keyOf p.2))))

/-- `duplicates_removed.pivot(index=["hadm_id","time"], columns=["itemid"],
values="value")` (lines 221-227).  Pandas pivot raises a ValueError when the
(index, columns) pairs are not unique; otherwise it yields one row per
(hadm_id, time) with a cell per itemid. -/
def pivot (df : Table) : Except String (List PivotRow) :=
  if hasDupKeys df then
    Except.error "ValueError"
  else
    Except.ok (((df.map (fun p => (p.2.hadm_id, p.2.time))).dedup).map (fun k =>
      { hadm_id := k.1, time := k.2,
        cols := df.filterMap (fun p =>
          if (p.2.hadm_id, p.2.time) = k then some (p.2.itemid, p.2.value)
          else none) }))

/-- Column access `resp_wider_in_ids[itemid]` on a pivot row: a key absent
from the row is NaN. -/
def getCol (r : PivotRow) (itemid : Nat) : Option Val :=
  match r.cols.find? (fun c => decide (c.1 = itemid)) with
  | some c => c.2
  | none => none

/-- `Series.fillna`: keep the first series where non-null, else the second. -/
def fillna (a b : Option Val) : Option Val :=
  match a with
  | some v => some v
  | none => b

/-- First non-null value of a precedence list of sources. -/
def firstNonNull (l : List (Option Val)) : Option Val :=
  (l.filterMap id).head?

/-- Line 230-232: tracheostomy = 225448.fillna(226237). -/
def tracheostomy_col (r : PivotRow) : Option Val :=
  fillna (getCol r 225448) (getCol r 226237)

/-- Line 233-235: lpm_set = 223834.fillna(227287). -/
def lpm_set_col (r : PivotRow) : Option Val :=
  fillna (getCol r 223834) (getCol r 227287)

/-- Lines 236-240: tidal_volume_obs = 224685.fillna(224686).fillna(224421). -/
def tidal_volume_obs_col (r : PivotRow) : Option Val :=
  fillna (fillna (getCol r 224685) (getCol r 224686)) (getCol r 224421)

/-- Lines 241-243: resp_rate_set = 224688.fillna(227581). -/
def resp_rate_set_col (r : PivotRow) : Option Val :=
  fillna (getCol r 224688) (getCol r 227581)

/-- Lines 244-246: resp_rate_obs = 224690.fillna(224422). -/
def resp_rate_obs_col (r : PivotRow) : Option Val :=
  fillna (getCol r 224690) (getCol r 224422)

/-- Lines 247-249: flow_rate_set = 224691.fillna(227582). -/
def flow_rate_set_col (r : PivotRow) : Option Val :=
  fillna (getCol r 224691) (getCol r 227582)

/-- Lines 250-252: peep_set = 220339.fillna(227579). -/
def peep_set_col (r : PivotRow) : Option Val :=
  fillna (getCol r 220339) (getCol r 227579)

/-- Lines 253-255: mode_name = 223849.fillna(229314.fillna(227577)). -/
def mode_name_col (r : PivotRow) : Option Val :=
  fillna (getCol r 223849) (fillna (getCol r 229314) (getCol r 227577))

/-- Lines 283-285: `device_name.map(lambda x: resp_device_mapper[x.strip()]
if pd.notna(x) else None)`.  A NaN name yields None; a non-null name that is
a dict key yields the mapped category (possibly None); a non-null name absent
from the dict raises KeyError inside `Series.map`. -/
def device_category_col (resp_device_mapper : Dict) (device_name : Option String) :
    Except String (Option String) :=
  match device_name with
  | some x =>
    (match dget resp_device_mapper (some (stripped x)) with
     | some v => Except.ok v
     | none => Except.error "KeyError")
  | none => Except.ok none

/-- Lines 286-288: `mode_name.map(resp_mode_mapper)` with a dict argument:
missing keys (and NaN) map to NaN, never raising. -/
def mode_category_col (resp_mode_mapper : Dict) (mode_name : Option String) :
    Option String :=
  match mode_name with
  | some x => (dget resp_mode_mapper (some x)).join
  | none => none

/-- One row of the renamed/reordered wide table as consumed by
`tracheostomy_imputed` (src/tables/respiratory_support.py:339-352):
the tracheostomy column has been renamed `trach_performed`. -/
structure WideRow where
  hospitalization_id : Nat
  recorded_dttm : Nat
  device_name : Option String
  trach_performed : Option Val
deriving DecidableEq, Repr

/-- Line 344-346 `trach_implied`: device_name ∈ {"Tracheostomy tube",
"Trach mask"} or the explicit flag equals 1 (a NaN flag compares unequal). -/
def trach_implied (r : WideRow) : Bool :=
  decide (r.device_name = some "Tracheostomy tube" ∨ r.device_name = some "Trach mask")
  || decide (r.trach_performed = some (Val.num 1))

/-- Lines 339-352 `tracheostomy_imputed`: per hospitalization_id (groupby
preserves row order within each group), `trach_bool` at a row is the
cumulative sum of `trach_implied` over that encounter's rows so far, cast to
bool: nonzero iff some earlier-or-equal row of the same encounter is implied.
The result pairs each row with its latched boolean. -/
def tracheostomy_imputed (df : List WideRow) : List (WideRow × Bool) :=
  df.enum.map (fun p =>
    (p.2, decide (((df.take (p.1 + 1)).filter
        (fun q => decide (q.hospitalization_id = p.2.hospitalization_id))).countP
        (fun q => trach_implied q) ≠ 0)))

/-- One row of the melted/cleaned medication table as consumed by the
deduplication section of src/tables/medication_admin_continuous.py:119-162. -/
structure MacRow where
  hospitalization_id : Nat
  admin_dttm : Nat
  med_category : String
  med_dose : Option Rat
  mar_action_name : String
deriving DecidableEq, Repr

/-- A medication DataFrame: list of (index label, row). -/
abbrev MacTable := List (Nat × MacRow)

/-- The `meds_keycols` duplicate key
`["hospitalization_id", "admin_dttm", "med_category"]` (line 122). -/
def keyOfMac (r : MacRow) : Nat × Nat × String :=
  (r.hospitalization_id, r.admin_dttm, r.med_category)

/-- src/utils.py `find_duplicates` applied with `meds_keycols` (line 121). -/
def find_duplicates_meds (df : MacTable) : MacTable :=
  df.filter (fun p =>
    decide (2 ≤ df.countP (fun q => decide (keyOfMac q.2 = keyOfMac p.2))))

/-- src/tables/medication_admin_continuous.py:31-32 `are_doses_close`:
relative difference of the two doses no more than 10% of the larger.
Float semantics: if either dose is NaN, or the larger dose is 0 (0/0 = nan,
x/0 = inf), the comparison with 0.1 is false. -/
def are_doses_close (d0 d1 : Option Rat) : Bool :=
  match d0, d1 with
  | some a, some b =>
    if max a b = 0 then false else decide (|a - b| / max a b ≤ 1 / 10)
  | _, _ => false

/-- src/tables/medication_admin_continuous.py:34-38 `drop_shorter_action_name`:
in a group of exactly two rows with close doses, keep only the row at
`mar_action_name.str.len().idxmax()` — the first row of maximal string length
(so the second row is kept only when strictly longer). -/
def drop_shorter_action_name (group : MacTable) : MacTable :=
  match group with
  | [p, q] =>
    if are_doses_close p.2.med_dose q.2.med_dose then
      if q.2.mar_action_name.length > p.2.mar_action_name.length then [q] else [p]
    else group
  | _ => group

/-- Lines 123-133 `meds_didx_1`: duplicate-group rows with a NaN dose. -/
def meds_didx_1 (mac_ldf : MacTable) : List Nat :=
  ((find_duplicates_meds mac_ldf).filter
    (fun p => decide (p.2.med_dose = none))).map (fun p => p.1)

/-- Line 135: the duplicate rows with a non-null dose. -/
def dups_notna (mac_ldf : MacTable) : MacTable :=
  (find_duplicates_meds mac_ldf).filter (fun p => p.2.med_dose.isSome)

/-- Lines 135-138 `mac_dups_d`: non-null duplicate rows still duplicated
after the null rows are gone. -/
def mac_dups_d (mac_ldf : MacTable) : MacTable :=
  (dups_notna mac_ldf).filter (fun p =>
    decide (2 ≤ (dups_notna mac_ldf).countP
      (fun q => decide (keyOfMac q.2 = keyOfMac p.2))))

/-- Line 141 `mac_dups_dd`: groupby `meds_keycols` and apply
`drop_shorter_action_name` per group (the stable sort on
keycols + dose_notna keeps the original row order inside each group). -/
def mac_dups_dd (mac_ldf : MacTable) : MacTable :=
  ((((mac_dups_d mac_ldf).map (fun p => keyOfMac p.2)).dedup).map (fun k =>
    drop_shorter_action_name
      ((mac_dups_d mac_ldf).filter (fun p => decide (keyOfMac p.2 = k))))).flatten

/-- Lines 142-144 `meds_didx_2`: the rows discarded by the per-group step. -/
def meds_didx_2 (mac_ldf : MacTable) : List Nat :=
  ((mac_dups_d mac_ldf).map (fun p => p.1)).filter
    (fun i => decide (i ∉ (mac_dups_dd mac_ldf).map (fun p => p.1)))

/-- src/tables/medication_admin_continuous.py:119-162, the deduplication of
`main`: both index sets are dropped from the full table (lines 160-161); the
step that would drop the remaining irreconcilable groups (lines 148-149, 162)
is commented out, so such groups are retained, and nothing is logged for
them.  (`mar_last`/`mar_new`, lines 126-131, are computed but never used for
dropping, so they are not modelled.) -/
def meds_dedup (mac_ldf : MacTable) : MacTable :=
  (mac_ldf.filter (fun p => decide (p.1 ∉ meds_didx_1 mac_ldf))).filter
    (fun p => decide (p.1 ∉ meds_didx_2 mac_ldf))

/-! ### Shared list lemmas -/

theorem filter_eq_singleton {α : Type} {l : List α} {P : α → Bool} {a : α}
    (hl : l.Nodup) (ha : a ∈ l) (hPa : P a = true)
    (huniq : ∀ b ∈ l, P b = true → b = a) : l.filter P = [a] := by
  induction l with
  | nil => cases ha
  | cons x t ih =>
    rcases List.nodup_cons.mp hl with ⟨hxt, hnt⟩
    rcases List.mem_cons.mp ha with rfl | hat
    · rw [List.filter_cons_of_pos hPa]
      have ht : t.filter P = [] := by
        rw [List.filter_eq_nil_iff]
        intro b hb hPb
        exact hxt ((huniq b (List.mem_cons_of_mem _ hb) hPb) ▸ hb)
      rw [ht]
    · have hPx : P x = false := by
        cases hPx2 : P x
        · rfl
        · have hxa : x = a := huniq x (List.mem_cons_self _ _) hPx2
          exact absurd (hxa.symm ▸ hat) hxt
      rw [List.filter_cons_of_neg (by simp [hPx])]
      exact ih hnt hat (fun b hb hPb => huniq b (List.mem_cons_of_mem _ hb) hPb)

theorem find?_eq_some_of_unique {α : Type} {l : List α} {P : α → Bool} {x : α}
    (hx : x ∈ l) (hPx : P x = true) (huniq : ∀ b ∈ l, P b = true → b = x) :
    l.find? P = some x := by
  induction l with
  | nil => cases hx
  | cons y t ih =>
    by_cases hPy : P y = true
    · rw [List.find?_cons_of_pos t hPy, huniq y (List.mem_cons_self _ _) hPy]
    · rw [List.find?_cons_of_neg t hPy]
      rcases List.mem_cons.mp hx with rfl | hxt
      · exact absurd hPx hPy
      · exact ih hxt (fun b hb hPb => huniq b (List.mem_cons_of_mem _ hb) hPb)

theorem mem_of_indices_nodup {α : Type} {df : List (Nat × α)}
    (hn : (df.map Prod.fst).Nodup) {p q : Nat × α}
    (hp : p ∈ df) (hq : q ∈ df) (h1 : p.1 = q.1) : p = q :=
  List.inj_on_of_nodup_map hn hp hq h1

/-- Restricting `duplicated(keep=False)` rows to one key whose group has at
least two rows gives back the whole group. -/
theorem dup_filter_restrict {α κ : Type} [DecidableEq κ] (df : List α) (key : α → κ)
    (K : κ) (h2 : 2 ≤ (df.filter (fun p => decide (key p = K))).length) :
    (df.filter (fun p => decide (2 ≤ df.countP (fun q => decide (key q = key p))))).filter
      (fun p => decide (key p = K)) = df.filter (fun p => decide (key p = K)) := by
  rw [List.filter_filter]
  apply List.filter_congr
  intro a _
  by_cases hk : key a = K
  · have h2a : 2 ≤ df.countP (fun q => decide (key q = K)) := by
      rw [List.countP_eq_length_filter]
      exact h2
    simp [hk, h2a]
  · simp [hk]

/-! ### C4: coalescing is first-non-null precedence -/

theorem fillna_eq_firstNonNull2 (a b : Option Val) :
    fillna a b = firstNonNull [a, b] := by
  cases a <;> cases b <;> rfl

theorem fillna_eq_firstNonNull3 (a b c : Option Val) :
    fillna (fillna a b) c = firstNonNull [a, b, c] := by
  cases a <;> cases b <;> cases c <;> rfl

theorem fillna_eq_firstNonNull3r (a b c : Option Val) :
    fillna a (fillna b c) = firstNonNull [a, b, c] := by
  cases a <;> cases b <;> cases c <;> rfl

/-- The Scenario D row: 224688 = 14 and 227581 = 18. -/
def scenarioD_row : PivotRow :=
  { hadm_id := 7, time := 0,
    cols := [(224688, some (Val.num 14)), (227581, some (Val.num 18))] }

/-- C4: every coalesced output column of the wide pivoted table equals the
first non-null source value in the declared left-to-right precedence order;
in particular a row with 224688=14 and 227581=18 coalesces to
resp_rate_set = 14. -/
theorem coalesced_cols_first_non_null (r : PivotRow) :
    tracheostomy_col r = firstNonNull [getCol r 225448, getCol r 226237]
  ∧ lpm_set_col r = firstNonNull [getCol r 223834, getCol r 227287]
  ∧ tidal_volume_obs_col r =
      firstNonNull [getCol r 224685, getCol r 224686, getCol r 224421]
  ∧ resp_rate_set_col r = firstNonNull [getCol r 224688, getCol r 227581]
  ∧ resp_rate_obs_col r = firstNonNull [getCol r 224690, getCol r 224422]
  ∧ flow_rate_set_col r = firstNonNull [getCol r 224691, getCol r 227582]
  ∧ peep_set_col r = firstNonNull [getCol r 220339, getCol r 227579]
  ∧ mode_name_col r = firstNonNull [getCol r 223849, getCol r 229314, getCol r 227577]
  ∧ resp_rate_set_col scenarioD_row = some (Val.num 14) :=
  ⟨fillna_eq_firstNonNull2 _ _, fillna_eq_firstNonNull2 _ _,
   fillna_eq_firstNonNull3 _ _ _, fillna_eq_firstNonNull2 _ _,
   fillna_eq_firstNonNull2 _ _, fillna_eq_firstNonNull2 _ _,
   fillna_eq_firstNonNull2 _ _, fillna_eq_firstNonNull3r _ _ _,
   by decide⟩

/-! ### C5: two close doses keep the longer mar_action_name -/

/-- C5: in a duplicate group reduced to exactly two rows whose doses are
within 10% of each other, `drop_shorter_action_name` keeps only the row with
the longer `mar_action_name` (first row on ties, mirroring `idxmax`). -/
theorem drop_shorter_keeps_longer (i1 i2 : Nat) (r1 r2 : MacRow)
    (hclose : are_doses_close r1.med_dose r2.med_dose = true) :
    (r2.mar_action_name.length > r1.mar_action_name.length →
      drop_shorter_action_name [(i1, r1), (i2, r2)] = [(i2, r2)])
  ∧ (r1.mar_action_name.length > r2.mar_action_name.length →
      drop_shorter_action_name [(i1, r1), (i2, r2)] = [(i1, r1)]) := by
  constructor
  · intro h
    simp [drop_shorter_action_name, hclose, h]
  · intro h
    simp [drop_shorter_action_name, hclose, Nat.not_lt.mpr (Nat.le_of_lt h)]

/-- The Scenario B rows: dose 10.0 with "Running" and dose 10.9 with
"ContinuedFromPriorRun". -/
def scenarioB_r1 : MacRow := ⟨7, 0, "propofol", some 10, "Running"⟩

def scenarioB_r2 : MacRow := ⟨7, 0, "propofol", some (109 / 10), "ContinuedFromPriorRun"⟩

theorem scenarioB_doses_close :
    are_doses_close scenarioB_r1.med_dose scenarioB_r2.med_dose = true := by
  rw [scenarioB_r1, scenarioB_r2]
  show are_doses_close (some 10) (some (109 / 10)) = true
  rw [are_doses_close]
  rw [show |(10 : Rat) - 109 / 10| = 9 / 10 by
    rw [abs_sub_comm]; rw [abs_of_nonneg] <;> norm_num]
  norm_num

theorem drop_shorter_keeps_longer_witness :
    drop_shorter_action_name [(0, scenarioB_r1), (1, scenarioB_r2)] = [(1, scenarioB_r2)] :=
  (drop_shorter_keeps_longer 0 1 scenarioB_r1 scenarioB_r2 scenarioB_doses_close).1 (by decide)

/-! ### C8: mapping-gap behaviour of the category derivations -/

/-- C8 counterexample: a non-null device name absent from the device mapping
makes the device-category derivation raise a KeyError instead of propagating
null (src/tables/respiratory_support.py:283-285 indexes the dict directly). -/
theorem device_category_unmapped_raises :
    device_category_col [] (some "Venti mask approx") = Except.error "KeyError" := rfl

/-- C8 (amended): unmapped non-null mode names propagate as null via
`Series.map(dict)`; for the device mapping, a null name or a name mapped to
the None sentinel propagates as null, but a non-null name absent from the
device dict raises KeyError. -/
theorem category_mapping_gap_policy :
    (∀ (mm : Dict) (x : String), dget mm (some x) = none →
        mode_category_col mm (some x) = none)
  ∧ (∀ mm : Dict, mode_category_col mm none = none)
  ∧ (∀ (dm : Dict) (x : String), dget dm (some (stripped x)) = none →
        device_category_col dm (some x) = Except.error "KeyError")
  ∧ (∀ (dm : Dict) (x : String), dget dm (some (stripped x)) = some none →
        device_category_col dm (some x) = Except.ok none)
  ∧ (∀ dm : Dict, device_category_col dm none = Except.ok none) := by
  refine ⟨fun mm x h => ?_, fun mm => rfl, fun dm x h => ?_, fun dm x h => ?_, fun dm => rfl⟩
  · simp [mode_category_col, h]
  · simp [device_category_col, h]
  · simp [device_category_col, h]

theorem category_mapping_gap_policy_witness :
    mode_category_col [] (some "PCV Mode") = none
  ∧ device_category_col [(some "Trach mask", some "Trach Collar")] (some "Oxymizer")
      = Except.error "KeyError"
  ∧ device_category_col [(some "Other device", none)] (some "Other device")
      = Except.ok none :=
  ⟨category_mapping_gap_policy.1 [] "PCV Mode" rfl,
   category_mapping_gap_policy.2.2.1 [(some "Trach mask", some "Trach Collar")] "Oxymizer" rfl,
   category_mapping_gap_policy.2.2.2.1 [(some "Other device", none)] "Other device" rfl⟩

/-! ### C7: construct_mapper_dict exclusion behaviour -/

/-- Normal form of `construct_mapper_dict` with `map_none_to_none = False` and
both the itemid and decision columns present. -/
theorem construct_mapper_dict_eq (df : List MappingRow)
    (kc vc : MappingRow → Option String) (exIds : List String)
    (dc : MappingRow → Option String) (exLabels : List String) :
    construct_mapper_dict df kc vc false exIds true dc true exLabels =
      ((df.filter (fun r => !(match r.itemid with
          | some v => decide (v ∈ exIds)
          | none => false))).filter (fun r => !(match dc r with
          | some v => decide (v ∈ exLabels)
          | none => false))).map (fun r =>
        if vc r = some "NO MAPPING" then (kc r, none) else (kc r, vc r)) := by
  simp only [construct_mapper_dict, if_neg, List.map_map, Bool.false_eq_true,
    if_false, if_true]
  apply List.map_congr_left
  intro r _
  by_cases hv : vc r = some "NO MAPPING" <;> simp [hv]

/-- The mapping table of the C7 counterexample: one row whose value is the
sentinel "NO MAPPING" but whose decision is not in the excluded set. -/
def c7_df : List MappingRow := [⟨none, some "k", some "NO MAPPING", some "OK"⟩]

def c7_dict : Dict :=
  construct_mapper_dict c7_df (fun r => r.key) (fun r => r.value) false []
    true (fun r => r.decision) true ["BAD"]

/-- C7 counterexample: a key whose mapped value is the sentinel "NO MAPPING"
(and whose decision is not excluded) is NOT omitted from the lookup: it is
present and bound to the None placeholder. -/
theorem construct_mapper_no_mapping_key_present :
    dget c7_dict (some "k") ≠ none ∧ dget c7_dict (some "k") = some none := by
  constructor
  · decide
  · decide

/-- C7 (amended): with the decision column present, (a) a key all of whose
rows carry an excluded decision label is absent from the lookup; (b) a key
whose unique row has value "NO MAPPING", a non-excluded decision and a
non-excluded itemid stays present, bound to the None placeholder. -/
theorem construct_mapper_dict_exclusion_policy
    (df : List MappingRow) (kc vc dc : MappingRow → Option String)
    (exIds exLabels : List String) (k : Option String) :
    ((∀ r ∈ df, kc r = k →
        (match dc r with
         | some v => decide (v ∈ exLabels)
         | none => false) = true) →
      dget (construct_mapper_dict df kc vc false exIds true dc true exLabels) k
        = none)
  ∧ (∀ r0 ∈ df, kc r0 = k → vc r0 = some "NO MAPPING" →
      (match r0.itemid with
       | some v => decide (v ∈ exIds)
       | none => false) = false →
      (match dc r0 with
       | some v => decide (v ∈ exLabels)
       | none => false) = false →
      (∀ r ∈ df, kc r = k → r = r0) →
      dget (construct_mapper_dict df kc vc false exIds true dc true exLabels) k
        = some none) := by
  constructor
  · intro h
    rw [construct_mapper_dict_eq]
    unfold dget
    rw [Option.map_eq_none', List.find?_eq_none]
    intro x hx
    rw [List.mem_reverse] at hx
    rcases List.mem_map.mp hx with ⟨r, hr, rfl⟩
    rcases List.mem_filter.mp hr with ⟨hr1, hdec⟩
    rcases List.mem_filter.mp hr1 with ⟨hrdf, _⟩
    simp only [decide_eq_true_eq]
    intro hk1
    have hkc : kc r = k := by
      by_cases hv : vc r = some "NO MAPPING" <;> simpa [hv] using hk1
    rw [h r hrdf hkc] at hdec
    simp at hdec
  · intro r0 hr0 hkc hvc hitem hdec huniq
    rw [construct_mapper_dict_eq]
    unfold dget
    have hmem : ((k : Option String), (none : Option String)) ∈
        ((df.filter (fun r => !(match r.itemid with
          | some v => decide (v ∈ exIds)
          | none => false))).filter (fun r => !(match dc r with
          | some v => decide (v ∈ exLabels)
          | none => false))).map (fun r =>
            if vc r = some "NO MAPPING" then (kc r, none) else (kc r, vc r)) := by
      refine List.mem_map.mpr ⟨r0, ?_, by simp [hvc, hkc]⟩
      exact List.mem_filter.mpr
        ⟨List.mem_filter.mpr ⟨hr0, by simp [hitem]⟩, by simp [hdec]⟩
    have hfind := find?_eq_some_of_unique (P := fun p => decide (p.1 = k))
      (List.mem_reverse.mpr hmem) (by simp) ?uniq
    · rw [hfind]
      rfl
    case uniq =>
      intro b hb hPb
      rw [List.mem_reverse] at hb
      rcases List.mem_map.mp hb with ⟨r, hr, rfl⟩
      rcases List.mem_filter.mp hr with ⟨hr1, _⟩
      rcases List.mem_filter.mp hr1 with ⟨hrdf, _⟩
      simp only [decide_eq_true_eq] at hPb
      have hkcr : kc r = k := by
        by_cases hv : vc r = some "NO MAPPING" <;> simpa [hv] using hPb
      have : r = r0 := huniq r hrdf hkcr
      subst this
      simp [hvc, hkc]

/-- A two-row mapping table for the C7 witness: the row keyed "a" has an
excluded decision; the row keyed "b" carries the "NO MAPPING" sentinel with a
kept decision. -/
def c7_witness_df : List MappingRow :=
  [⟨some "1", some "a", some "x", some "NO MAPPING"⟩,
   ⟨some "2", some "b", some "NO MAPPING", some "OK"⟩]

theorem construct_mapper_dict_exclusion_policy_witness :
    dget (construct_mapper_dict c7_witness_df (fun r => r.key) (fun r => r.value)
        false [] true (fun r => r.decision) true CONSTRUCT_MAPPER_EXCLUDED_LABELS)
      (some "a") = none
  ∧ dget (construct_mapper_dict c7_witness_df (fun r => r.key) (fun r => r.value)
        false [] true (fun r => r.decision) true CONSTRUCT_MAPPER_EXCLUDED_LABELS)
      (some "b") = some none :=
  ⟨(construct_mapper_dict_exclusion_policy c7_witness_df _ _ _ [] _ (some "a")).1
      (by decide),
   (construct_mapper_dict_exclusion_policy c7_witness_df _ _ _ [] _ (some "b")).2
      ⟨some "2", some "b", some "NO MAPPING", some "OK"⟩ (by decide) (by decide)
      (by decide) (by decide) (by decide) (by decide)⟩

/-! ### C10: none_value_rows_removed validation behaviour -/

theorem dedup_eq_singleton_of_all_eq {α : Type} [DecidableEq α] {l : List α}
    {x : α} (hne : l ≠ []) (hall : ∀ a ∈ l, a = x) : l.dedup = [x] := by
  induction l with
  | nil => exact absurd rfl hne
  | cons a t ih =>
    have hax : a = x := hall a (List.mem_cons_self _ _)
    cases t with
    | nil => rw [List.dedup_cons_of_not_mem (by simp), List.dedup_nil, hax]
    | cons b t2 =>
      have hmem : a ∈ b :: t2 := by
        rw [hax, hall b (by simp)]
        exact List.mem_cons_self _ _
      rw [List.dedup_cons_of_mem hmem]
      exact ih (by simp) (fun c hc => hall c (List.mem_cons_of_mem _ hc))

theorem all_eq_of_dedup_length_one {α : Type} [DecidableEq α] {l : List α}
    (h : l.dedup.length = 1) : ∀ a ∈ l, ∀ b ∈ l, a = b := by
  rcases List.length_eq_one.mp h with ⟨c, hc⟩
  intro a ha b hb
  have ha2 : a ∈ l.dedup := List.mem_dedup.mpr ha
  have hb2 : b ∈ l.dedup := List.mem_dedup.mpr hb
  rw [hc, List.mem_singleton] at ha2 hb2
  rw [ha2, hb2]

/-- C10: the builder returns the table with the string-"None" rows removed
exactly when there is at least one such row and all of them have itemid
226732; if some "None" row has a different itemid, or if there are no "None"
rows at all (so that nunique is 0, not 1), it raises a ValueError instead. -/
theorem none_value_rows_removed_spec (df : Table) :
    ((df.filter (fun p => decide (p.2.value = some (Val.str "None"))) ≠ []
      ∧ ∀ p ∈ df.filter (fun p => decide (p.2.value = some (Val.str "None"))),
          p.2.itemid = 226732) →
      none_value_rows_removed df =
        Except.ok (df.filter (fun p => !(decide (p.2.value = some (Val.str "None"))))))
  ∧ ((∃ p ∈ df.filter (fun p => decide (p.2.value = some (Val.str "None"))),
        p.2.itemid ≠ 226732) →
      none_value_rows_removed df = Except.error "ValueError")
  ∧ (df.filter (fun p => decide (p.2.value = some (Val.str "None"))) = [] →
      none_value_rows_removed df = Except.error "ValueError") := by
  refine ⟨?_, ?_, ?_⟩
  · rintro ⟨hne, hall⟩
    have hall2 : ∀ a ∈ (df.filter
        (fun p => decide (p.2.value = some (Val.str "None")))).map
          (fun p => p.2.itemid), a = 226732 := by
      intro a ha
      rcases List.mem_map.mp ha with ⟨p, hp, rfl⟩
      exact hall p hp
    have hd : ((df.filter
        (fun p => decide (p.2.value = some (Val.str "None")))).map
          (fun p => p.2.itemid)).dedup = [226732] :=
      dedup_eq_singleton_of_all_eq (by simpa using hne) hall2
    have hh : ((df.filter
        (fun p => decide (p.2.value = some (Val.str "None")))).map
          (fun p => p.2.itemid)).head? = some 226732 := by
      rcases hl : df.filter (fun p => decide (p.2.value = some (Val.str "None"))) with
        _ | ⟨p0, rest⟩
      · exact absurd hl hne
      · have hp0 : p0.2.itemid = 226732 :=
          hall p0 (by rw [hl]; exact List.mem_cons_self _ _)
        rw [hl]
        simp [hp0]
    simp only [none_value_rows_removed]
    rw [if_pos]
    rw [Bool.and_eq_true, decide_eq_true_eq, decide_eq_true_eq]
    exact ⟨by rw [hd]; rfl, hh⟩
  · rintro ⟨p, hp, hitem⟩
    by_cases hd : ((df.filter
        (fun p => decide (p.2.value = some (Val.str "None")))).map
          (fun p => p.2.itemid)).dedup.length = 1
    · have hall := all_eq_of_dedup_length_one hd
      by_cases hh : ((df.filter
          (fun p => decide (p.2.value = some (Val.str "None")))).map
            (fun p => p.2.itemid)).head? = some 226732
      · exfalso
        have hpm : p.2.itemid ∈ (df.filter
            (fun p => decide (p.2.value = some (Val.str "None")))).map
              (fun p => p.2.itemid) := List.mem_map_of_mem _ hp
        have hhm : 226732 ∈ (df.filter
            (fun p => decide (p.2.value = some (Val.str "None")))).map
              (fun p => p.2.itemid) := List.mem_of_mem_head? hh
        exact hitem (hall _ hpm _ hhm)
      · simp only [none_value_rows_removed]
        rw [if_neg]
        rw [Bool.and_eq_true, decide_eq_true_eq, decide_eq_true_eq]
        rintro ⟨_, h2⟩
        exact hh h2
    · simp only [none_value_rows_removed]
      rw [if_neg]
      rw [Bool.and_eq_true, decide_eq_true_eq, decide_eq_true_eq]
      rintro ⟨h1, _⟩
      exact hd h1
  · intro hnil
    simp only [none_value_rows_removed]
    rw [if_neg]
    rw [Bool.and_eq_true, decide_eq_true_eq, decide_eq_true_eq]
    rintro ⟨h1, _⟩
    rw [hnil] at h1
    simp at h1

/-- Input for the C10 witness: one "None"-valued device-selector row plus an
ordinary row. -/
def c10_df : Table :=
  [(0, ⟨7, 1, 5, 226732, some (Val.str "None"), none⟩),
   (1, ⟨7, 1, 6, 220339, some (Val.str "5"), none⟩)]

theorem none_value_rows_removed_spec_witness :
    none_value_rows_removed c10_df =
      Except.ok [(1, ⟨7, 1, 6, 220339, some (Val.str "5"), none⟩)]
  ∧ none_value_rows_removed [(1, (⟨7, 1, 6, 220339, some (Val.str "5"), none⟩ : Event))]
      = Except.error "ValueError" :=
  ⟨(none_value_rows_removed_spec c10_df).1 ⟨by decide, by decide⟩,
   (none_value_rows_removed_spec
      [(1, (⟨7, 1, 6, 220339, some (Val.str "5"), none⟩ : Event))]).2.2 (by decide)⟩

/-! ### C6: the long-to-wide pivot fails loudly on duplicates -/

/-- C6: the pivot raises a ValueError exactly when its input contains two or
more rows sharing the same (hadm_id, time, itemid); on duplicate-free input
it succeeds and yields exactly one row per (hadm_id, time) key of the input
(the output keys are exactly the distinct input keys, with no repeats). -/
theorem pivot_duplicates_policy (df : Table) :
    (hasDupKeys df = false →
      ∃ rows, pivot df = Except.ok rows
        ∧ (rows.map (fun r => (r.hadm_id, r.time))).Nodup
        ∧ ∀ k, k ∈ rows.map (fun r => (r.hadm_id, r.time)) ↔
            k ∈ df.map (fun p => (p.2.hadm_id, p.2.time)))
  ∧ (hasDupKeys df = true → pivot df = Except.error "ValueError")
  ∧ (hasDupKeys df = true ↔ ∃ p ∈ df,
      2 ≤ (df.filter (fun q => decide (keyOf q.2 = keyOf p.2))).length) := by
  refine ⟨?_, ?_, ?_⟩
  · intro h
    have hpiv : pivot df = Except.ok
        ((df.map (fun p => (p.2.hadm_id, p.2.time))).dedup.map (fun k =>
          { hadm_id := k.1, time := k.2,
            cols := df.filterMap (fun p =>
              if (p.2.hadm_id, p.2.time) = k then some (p.2.itemid, p.2.value)
              else none) })) := by
      simp only [pivot, h, Bool.false_eq_true, if_false]
    refine ⟨_, hpiv, ?_, ?_⟩
    · rw [List.map_map]
      have : ((fun r : PivotRow => (r.hadm_id, r.time)) ∘ (fun k : Nat × Nat =>
          ({ hadm_id := k.1, time := k.2,
             cols := df.filterMap (fun p =>
               if (p.2.hadm_id, p.2.time) = k then some (p.2.itemid, p.2.value)
               else none) } : PivotRow))) = id := by
        funext k
        rfl
      rw [this, List.map_id]
      exact List.nodup_dedup _
    · intro k
      rw [List.map_map]
      have : ((fun r : PivotRow => (r.hadm_id, r.time)) ∘ (fun k : Nat × Nat =>
          ({ hadm_id := k.1, time := k.2,
             cols := df.filterMap (fun p =>
               if (p.2.hadm_id, p.2.time) = k then some (p.2.itemid, p.2.value)
               else none) } : PivotRow))) = id := by
        funext k
        rfl
      rw [this, List.map_id]
      exact List.mem_dedup
  · intro h
    simp only [pivot, h, if_true]
  · rw [hasDupKeys, List.any_eq_true]
    constructor
    · rintro ⟨p, hp, hcount⟩
      rw [decide_eq_true_eq, List.countP_eq_length_filter] at hcount
      exact ⟨p, hp, hcount⟩
    · rintro ⟨p, hp, hcount⟩
      refine ⟨p, hp, ?_⟩
      rw [decide_eq_true_eq, List.countP_eq_length_filter]
      exact hcount

/-- A duplicate-free table for the C6 witness. -/
def c6_df_ok : Table :=
  [(0, ⟨7, 1, 5, 226732, some (Val.str "Nasal cannula"), none⟩),
   (1, ⟨7, 1, 5, 220339, some (Val.str "5"), none⟩),
   (2, ⟨7, 1, 6, 226732, some (Val.str "Nasal cannula"), none⟩)]

/-- A table with a duplicated (hadm_id, time, itemid) key for the C6 witness. -/
def c6_df_dup : Table :=
  [(0, ⟨7, 1, 5, 226732, some (Val.str "Nasal cannula"), none⟩),
   (1, ⟨7, 1, 5, 226732, some (Val.str "Face tent"), none⟩)]

theorem pivot_duplicates_policy_witness :
    (∃ rows, pivot c6_df_ok = Except.ok rows
      ∧ (rows.map (fun r => (r.hadm_id, r.time))).Nodup
      ∧ ∀ k, k ∈ rows.map (fun r => (r.hadm_id, r.time)) ↔
          k ∈ c6_df_ok.map (fun p => (p.2.hadm_id, p.2.time)))
  ∧ pivot c6_df_dup = Except.error "ValueError" :=
  ⟨(pivot_duplicates_policy c6_df_ok).1 (by decide),
   (pivot_duplicates_policy c6_df_dup).2.1 (by decide)⟩

/-! ### C2: the tracheostomy flag is a per-encounter cumulative OR -/

theorem tracheostomy_imputed_getElem (df : List WideRow) (i : Nat) (r : WideRow)
    (b : Bool) (h : (tracheostomy_imputed df)[i]? = some (r, b)) :
    df[i]? = some r ∧
    b = decide (((df.take (i + 1)).filter
        (fun q => decide (q.hospitalization_id = r.hospitalization_id))).countP
        (fun q => trach_implied q) ≠ 0) := by
  unfold tracheostomy_imputed at h
  rw [List.getElem?_map, List.enum_eq_enumFrom, List.getElem?_enumFrom] at h
  cases hdf : df[i]? with
  | none => rw [hdf] at h; simp at h
  | some q =>
    rw [hdf] at h
    simp only [Option.map_some', Option.some.injEq, Nat.zero_add] at h
    have hq : q = r := congrArg Prod.fst h
    subst hq
    exact ⟨rfl, (congrArg Prod.snd h).symm⟩

/-- C2: for every input table and row position, the derived boolean equals
the OR, over all positions j ≤ i with the same hospitalization_id, of
`trach_implied`; consequently the per-encounter boolean sequence is
non-decreasing in row order (the rows of one encounter are timestamp-sorted
upstream), and an encounter with no implied evidence keeps the flag false
at every row. -/
theorem tracheostomy_latch_spec (df : List WideRow) (i : Nat) (r : WideRow)
    (b : Bool) (h : (tracheostomy_imputed df)[i]? = some (r, b)) :
    (b = true ↔ ∃ j, j ≤ i ∧ ∃ q, df[j]? = some q ∧
        q.hospitalization_id = r.hospitalization_id ∧ trach_implied q = true)
  ∧ (∀ i2 r2 b2, i ≤ i2 → (tracheostomy_imputed df)[i2]? = some (r2, b2) →
      r2.hospitalization_id = r.hospitalization_id → b = true → b2 = true)
  ∧ ((∀ q ∈ df, q.hospitalization_id = r.hospitalization_id →
      trach_implied q = false) → b = false) := by
  obtain ⟨hdf, hb⟩ := tracheostomy_imputed_getElem df i r b h
  have hiff : b = true ↔ ∃ j, j ≤ i ∧ ∃ q, df[j]? = some q ∧
      q.hospitalization_id = r.hospitalization_id ∧ trach_implied q = true := by
    rw [hb, decide_eq_true_eq]
    constructor
    · intro hne
      rcases List.countP_pos_iff.mp (Nat.pos_of_ne_zero hne) with ⟨q, hqmem, himp⟩
      rcases List.mem_filter.mp hqmem with ⟨hqtake, hqhosp⟩
      rcases List.mem_take_iff_getElem.mp hqtake with ⟨j, hj, hget⟩
      refine ⟨j, by omega, q, ?_, by simpa using hqhosp, himp⟩
      exact List.getElem?_eq_some.mpr ⟨by omega, hget⟩
    · rintro ⟨j, hji, q, hget, hhosp, himp⟩
      rcases List.getElem?_eq_some.mp hget with ⟨hjlen, hgetj⟩
      refine Nat.pos_iff_ne_zero.mp (List.countP_pos_iff.mpr
        ⟨q, List.mem_filter.mpr ⟨?_, by simpa using hhosp⟩, himp⟩)
      exact List.mem_take_iff_getElem.mpr ⟨j, by omega, hgetj⟩
  refine ⟨hiff, ?_, ?_⟩
  · intro i2 r2 b2 hi12 h2 hr2 hbtrue
    obtain ⟨_, hb2⟩ := tracheostomy_imputed_getElem df i2 r2 b2 h2
    rw [hb, decide_eq_true_eq] at hbtrue
    rw [hb2, hr2, decide_eq_true_eq]
    have hsub : List.Sublist
        ((df.take (i + 1)).filter
          (fun q => decide (q.hospitalization_id = r.hospitalization_id)))
        ((df.take (i2 + 1)).filter
          (fun q => decide (q.hospitalization_id = r.hospitalization_id))) :=
      (List.take_sublist_take_left df (by omega)).filter _
    have hle : List.countP (fun q => trach_implied q)
        ((df.take (i + 1)).filter
          (fun q => decide (q.hospitalization_id = r.hospitalization_id))) ≤
        List.countP (fun q => trach_implied q)
        ((df.take (i2 + 1)).filter
          (fun q => decide (q.hospitalization_id = r.hospitalization_id))) :=
      hsub.countP_le _
    omega
  · intro hall
    cases hbv : b with
    | false => rfl
    | true =>
      rcases hiff.mp hbv with ⟨j, _, q, hget, hhosp, himp⟩
      rcases List.getElem?_eq_some.mp hget with ⟨hjlen, hgetj⟩
      have hqmem : q ∈ df := hgetj ▸ List.getElem_mem hjlen
      rw [hall q hqmem hhosp] at himp
      cases himp

/-- The Scenario C table: encounter 5 has a tracheostomy device at its second
row only; encounter 6 has no trach evidence. -/
def c2_df : List WideRow :=
  [⟨5, 1, none, none⟩, ⟨5, 2, some "Tracheostomy tube", none⟩,
   ⟨5, 3, none, none⟩, ⟨6, 4, none, none⟩]

theorem tracheostomy_latch_spec_witness :
    (∃ j, j ≤ 2 ∧ ∃ q, c2_df[j]? = some q ∧
      q.hospitalization_id = 5 ∧ trach_implied q = true)
  ∧ ¬(∃ j, j ≤ 3 ∧ ∃ q, c2_df[j]? = some q ∧
      q.hospitalization_id = 6 ∧ trach_implied q = true) :=
  ⟨(tracheostomy_latch_spec c2_df 2 ⟨5, 3, none, none⟩ true (by decide)).1.mp rfl,
   fun hP => absurd ((tracheostomy_latch_spec c2_df 3 ⟨6, 4, none, none⟩ false
      (by decide)).1.mpr hP) (by decide)⟩

/-! ### C3: unresolved medication conflict groups are retained, not dropped -/

theorem filter_swap {α : Type} (l : List α) (p q : α → Bool) :
    (l.filter p).filter q = (l.filter q).filter p := by
  rw [List.filter_filter, List.filter_filter]
  apply List.filter_congr
  intro a _
  rw [Bool.and_comm]

/-- Three conflicting rows of one medication key: more than two rows, all
doses non-null, so neither dedup rule reduces the group. -/
def c3_df : MacTable :=
  [(0, ⟨7, 0, "propofol", some 1, "a"⟩),
   (1, ⟨7, 0, "propofol", some 5, "b"⟩),
   (2, ⟨7, 0, "propofol", some 9, "c"⟩)]

/-- C3 counterexample: a duplicate group that survives the null-dose drop and
the closeness tie-break with three rows is NOT dropped: the output contains
all three rows of the (7, 0, "propofol") key, not zero (the drop-all step of
the source is commented out, lines 148-162, and nothing is logged). -/
theorem meds_dedup_keeps_unresolved_conflicts :
    (meds_dedup c3_df).filter
      (fun p => decide (keyOfMac p.2 = (7, 0, "propofol"))) = c3_df := by decide

/-- C3 (amended): a duplicate group of at least two rows, all with non-null
doses, on which `drop_shorter_action_name` makes no reduction, is retained in
full by the dedup: the output contains every row of that key. -/
theorem meds_dedup_retains_unreduced_groups (df : MacTable)
    (K : Nat × Nat × String)
    (hnodup : (df.map Prod.fst).Nodup)
    (hlen : 2 ≤ (df.filter (fun p => decide (keyOfMac p.2 = K))).length)
    (hdose : ∀ p ∈ df.filter (fun p => decide (keyOfMac p.2 = K)),
      p.2.med_dose.isSome = true)
    (hnored : drop_shorter_action_name
        (df.filter (fun p => decide (keyOfMac p.2 = K))) =
      df.filter (fun p => decide (keyOfMac p.2 = K))) :
    (meds_dedup df).filter (fun p => decide (keyOfMac p.2 = K)) =
      df.filter (fun p => decide (keyOfMac p.2 = K)) := by
  have h1 : (find_duplicates_meds df).filter
      (fun p => decide (keyOfMac p.2 = K)) =
      df.filter (fun p => decide (keyOfMac p.2 = K)) :=
    dup_filter_restrict df (fun p => keyOfMac p.2) K hlen
  have h2 : (dups_notna df).filter (fun p => decide (keyOfMac p.2 = K)) =
      df.filter (fun p => decide (keyOfMac p.2 = K)) := by
    unfold dups_notna
    rw [filter_swap, h1]
    exact List.filter_eq_self.mpr hdose
  have h3 : (mac_dups_d df).filter (fun p => decide (keyOfMac p.2 = K)) =
      df.filter (fun p => decide (keyOfMac p.2 = K)) := by
    have hl2 : 2 ≤ ((dups_notna df).filter
        (fun p => decide (keyOfMac p.2 = K))).length := by
      rw [h2]
      exact hlen
    exact (dup_filter_restrict (dups_notna df) (fun p => keyOfMac p.2) K hl2).trans h2
  have hK : K ∈ ((mac_dups_d df).map (fun p => keyOfMac p.2)).dedup := by
    have hpos : 0 < (df.filter (fun p => decide (keyOfMac p.2 = K))).length := by
      omega
    rcases List.exists_mem_of_length_pos hpos with ⟨p0, hp0⟩
    rw [← h3] at hp0
    rcases List.mem_filter.mp hp0 with ⟨hp0d, hp0k⟩
    rw [decide_eq_true_eq] at hp0k
    exact List.mem_dedup.mpr (hp0k ▸ List.mem_map_of_mem _ hp0d)
  have hSdd : ∀ p ∈ df.filter (fun p => decide (keyOfMac p.2 = K)),
      p ∈ mac_dups_dd df := by
    intro p hp
    unfold mac_dups_dd
    rw [List.mem_flatten]
    refine ⟨drop_shorter_action_name
      ((mac_dups_d df).filter (fun p => decide (keyOfMac p.2 = K))),
      List.mem_map_of_mem _ hK, ?_⟩
    rw [h3, hnored]
    exact hp
  have hd1 : ∀ p ∈ df.filter (fun p => decide (keyOfMac p.2 = K)),
      decide (p.1 ∉ meds_didx_1 df) = true := by
    intro p hp
    rw [decide_eq_true_eq]
    intro hmem
    unfold meds_didx_1 at hmem
    rcases List.mem_map.mp hmem with ⟨q, hq, hq1⟩
    rcases List.mem_filter.mp hq with ⟨hqd, hqdose⟩
    have hqdf : q ∈ df := (List.filter_sublist df).subset hqd
    have hpdf : p ∈ df := (List.filter_sublist df).subset hp
    have hpq : q = p := mem_of_indices_nodup hnodup hqdf hpdf hq1
    rw [decide_eq_true_eq] at hqdose
    have := hdose p hp
    rw [← hpq, hqdose] at this
    cases this
  have hd2 : ∀ p ∈ df.filter (fun p => decide (keyOfMac p.2 = K)),
      decide (p.1 ∉ meds_didx_2 df) = true := by
    intro p hp
    rw [decide_eq_true_eq]
    intro hmem
    unfold meds_didx_2 at hmem
    rcases List.mem_filter.mp hmem with ⟨_, hnotdd⟩
    rw [decide_eq_true_eq] at hnotdd
    exact hnotdd (List.mem_map_of_mem _ (hSdd p hp))
  have e1 : (df.filter (fun p => decide (p.1 ∉ meds_didx_1 df))).filter
      (fun p => decide (keyOfMac p.2 = K)) =
      df.filter (fun p => decide (keyOfMac p.2 = K)) := by
    rw [filter_swap]
    exact List.filter_eq_self.mpr hd1
  unfold meds_dedup
  rw [filter_swap, e1]
  exact List.filter_eq_self.mpr hd2

theorem meds_dedup_retains_unreduced_groups_witness :
    (meds_dedup c3_df).filter
      (fun p => decide (keyOfMac p.2 = (7, 0, "propofol"))) =
      c3_df.filter (fun p => decide (keyOfMac p.2 = (7, 0, "propofol"))) :=
  meds_dedup_retains_unreduced_groups c3_df (7, 0, "propofol")
    (by decide) (by decide) (by decide) (by decide)

/-! ### C1: device duplicate groups keep exactly the first top-ranked row -/

/-- Decidable tag that every row of a duplicate group carries a string value
that the device dict maps to a category of the ranking list. -/
def groupMapped (dm : Dict) (g : Table) : Bool :=
  g.all (fun p =>
    match catOf dm p with
    | some u => decide (stripped u.2.2 ∈ RESP_DEVICE_RANK)
    | none => false)

theorem catOf_some {dm : Dict} {p : Nat × Event} {u : Nat × Event × String}
    (h : catOf dm p = some u) :
    u.1 = p.1 ∧ u.2.1 = p.2 ∧ p.2.value.isSome = true := by
  unfold catOf at h
  split at h
  next s heq =>
    split at h
    next c heq2 =>
      cases h
      exact ⟨rfl, rfl, by rw [heq]; rfl⟩
    next => cases h
  next => cases h

theorem groupMapped_catOf {dm : Dict} {g : Table} (hall : groupMapped dm g = true)
    {p : Nat × Event} (hp : p ∈ g) :
    ∃ u, catOf dm p = some u ∧ stripped u.2.2 ∈ RESP_DEVICE_RANK := by
  have hthis := List.all_eq_true.mp hall p hp
  cases hc : catOf dm p with
  | none => rw [hc] at hthis; cases hthis
  | some u =>
    rw [hc] at hthis
    exact ⟨u, rfl, by simpa using hthis⟩

theorem filterMap_filter_comm {α β : Type} (f : α → Option β) (P : β → Bool)
    (Q : α → Bool) (hcompat : ∀ a b, f a = some b → P b = Q a) :
    ∀ l : List α, (l.filterMap f).filter P = (l.filter Q).filterMap f := by
  intro l
  induction l with
  | nil => rfl
  | cons a t ih =>
    rw [List.filter_cons]
    cases hfa : f a with
    | none =>
      by_cases hQ : Q a = true
      · rw [if_pos hQ]
        simp only [List.filterMap_cons, hfa]
        exact ih
      · rw [if_neg hQ]
        simp only [List.filterMap_cons, hfa]
        exact ih
    | some b =>
      have hPb : P b = Q a := hcompat a b hfa
      simp only [List.filterMap_cons, hfa, List.filter_cons]
      by_cases hQ : Q a = true
      · rw [if_pos (by rw [hPb]; exact hQ), if_pos hQ]
        simp only [List.filterMap_cons, hfa]
        rw [ih]
      · rw [if_neg (by rw [hPb]; exact hQ), if_neg hQ]
        exact ih

/-- A ranked row comes from a row of the input, with the same index and
event. -/
theorem withRank_mem_shape {dm : Dict} {rows : Table} {u : Nat × Event × Nat}
    (hu : u ∈ withRank dm rows) : (u.1, u.2.1) ∈ rows := by
  unfold withRank at hu
  rcases List.mem_map.mp hu with ⟨v, hv, hvu⟩
  rcases List.mem_filterMap.mp hv with ⟨p, hp, hcat⟩
  rcases catOf_some hcat with ⟨h1, h2, _⟩
  have hu1 : u.1 = p.1 := by rw [← hvu, h1]
  have hu2 : u.2.1 = p.2 := by rw [← hvu]; exact h2
  rw [hu1, hu2]
  exact hp

/-- Restricting the ranked rows to one (hadm_id, time, itemid) key is the
same as ranking the restriction. -/
theorem groupRows_withRank (dm : Dict) (rows : Table) (K : Nat × Nat × Nat) :
    groupRows (withRank dm rows) K =
      withRank dm (rows.filter (fun p => decide (keyOf p.2 = K))) := by
  unfold groupRows withRank withCategory
  rw [List.filter_map]
  have hP : ((fun u : Nat × Event × Nat => decide (keyOf u.2.1 = K)) ∘
      (fun t : Nat × Event × String =>
        (t.1, t.2.1, List.indexOf (stripped t.2.2) RESP_DEVICE_RANK))) =
      (fun t : Nat × Event × String => decide (keyOf t.2.1 = K)) := rfl
  rw [hP]
  rw [filterMap_filter_comm (catOf dm) (fun t => decide (keyOf t.2.1 = K))
    (fun p => decide (keyOf p.2 = K))
    (fun a b hab => by
      rcases catOf_some hab with ⟨_, h2, _⟩
      show decide (keyOf b.2.1 = K) = decide (keyOf a.2 = K)
      rw [h2])]

theorem idxminTriple_eq_none {l : List (Nat × Event × Nat)} :
    idxminTriple l = none ↔ l = [] := by
  cases l with
  | nil => simp [idxminTriple]
  | cons t rest =>
    simp only [idxminTriple]
    cases idxminTriple rest with
    | none => simp
    | some u =>
      by_cases hlt : u.2.2 < t.2.2 <;> simp [hlt]

/-- The `idxmin` of a group is its first row of minimal rank: everything
before it has a strictly larger rank, everything after at least as large. -/
theorem idxminTriple_spec :
    ∀ (l : List (Nat × Event × Nat)) (u : Nat × Event × Nat),
    idxminTriple l = some u →
    ∃ A B, l = A ++ u :: B ∧ (∀ v ∈ A, u.2.2 < v.2.2) ∧ (∀ v ∈ B, u.2.2 ≤ v.2.2) := by
  intro l
  induction l with
  | nil => intro u h; cases h
  | cons t rest ih =>
    intro u h
    unfold idxminTriple at h
    split at h
    next hrest =>
      cases h
      have hnil : rest = [] := idxminTriple_eq_none.mp hrest
      subst hnil
      exact ⟨[], [], rfl, by simp, by simp⟩
    next v hrest =>
      rcases ih v hrest with ⟨A, B, hAB, hA, hB⟩
      split at h
      next hlt =>
        cases h
        refine ⟨t :: A, B, by rw [hAB]; rfl, ?_, hB⟩
        intro w hw
        rcases List.mem_cons.mp hw with rfl | hwA
        · exact hlt
        · exact hA w hwA
      next hlt =>
        cases h
        refine ⟨[], rest, rfl, by simp, ?_⟩
        intro w hw
        have hvle : t.2.2 ≤ v.2.2 := Nat.le_of_not_lt hlt
        rw [hAB] at hw
        rcases List.mem_append.mp hw with hwA | hwB
        · exact Nat.le_of_lt (Nat.lt_of_le_of_lt hvle (hA w hwA))
        · rcases List.mem_cons.mp hwB with rfl | hwB2
          · exact hvle
          · exact Nat.le_trans hvle (hB w hwB2)

theorem idxminTriple_mem {l : List (Nat × Event × Nat)} {u : Nat × Event × Nat}
    (h : idxminTriple l = some u) : u ∈ l := by
  rcases idxminTriple_spec l u h with ⟨A, B, hAB, _, _⟩
  rw [hAB]
  exact List.mem_append.mpr (Or.inr (List.mem_cons_self _ _))

/-- What `drop_duplicates(keep="first")` leaves of one key: nothing if the
key was already seen, else the first row of that key. -/
theorem drop_duplicates_first_filter_key (K : Nat × Nat × Nat) (l : Table) :
    ∀ seen : List (Nat × Nat × Nat),
    (drop_duplicates_first seen l).filter (fun p => decide (keyOf p.2 = K)) =
      if K ∈ seen then []
      else (l.filter (fun p => decide (keyOf p.2 = K))).take 1 := by
  induction l with
  | nil =>
    intro seen
    by_cases hKs : K ∈ seen
    · rw [if_pos hKs]; rfl
    · rw [if_neg hKs]; rfl
  | cons p t ih =>
    intro seen
    unfold drop_duplicates_first
    by_cases hseen : keyOf p.2 ∈ seen
    · rw [if_pos hseen, ih seen]
      by_cases hpK : keyOf p.2 = K
      · rw [if_pos (hpK ▸ hseen), if_pos (hpK ▸ hseen)]
      · rw [List.filter_cons_of_neg (by simp [hpK])]
    · rw [if_neg hseen, List.filter_cons]
      by_cases hpK : keyOf p.2 = K
      · rw [if_pos (by simp [hpK]), ih (keyOf p.2 :: seen)]
        rw [if_pos (by rw [hpK]; exact hpK ▸ List.mem_cons_self _ _)]
        rw [if_neg (fun hc => hseen (hpK ▸ hc)), List.filter_cons_of_pos (by simp [hpK])]
        rfl
      · rw [if_neg (by simp [hpK]), ih (keyOf p.2 :: seen)]
        rw [List.filter_cons_of_neg (by simp [hpK])]
        by_cases hKs : K ∈ seen
        · rw [if_pos (List.mem_cons_of_mem _ hKs), if_pos hKs]
        · rw [if_neg ?hnotin, if_neg hKs]
          case hnotin =>
            intro hc
            rcases List.mem_cons.mp hc with h1 | h2
            · exact hpK h1.symm
            · exact hKs h2

theorem drop_duplicates_first_sublist (l : Table) :
    ∀ seen, List.Sublist (drop_duplicates_first seen l) l := by
  induction l with
  | nil => intro seen; exact List.Sublist.refl _
  | cons p t ih =>
    intro seen
    unfold drop_duplicates_first
    by_cases hseen : keyOf p.2 ∈ seen
    · rw [if_pos hseen]
      exact (ih seen).cons p
    · rw [if_neg hseen]
      exact (ih _).cons₂ p

theorem drop_duplicates_first_keys (l : Table) :
    ∀ seen, ((drop_duplicates_first seen l).map (fun p => keyOf p.2)).Nodup ∧
    ∀ p ∈ drop_duplicates_first seen l, keyOf p.2 ∉ seen := by
  induction l with
  | nil =>
    intro seen
    exact ⟨List.nodup_nil, by intro p hp; cases hp⟩
  | cons p t ih =>
    intro seen
    unfold drop_duplicates_first
    by_cases hseen : keyOf p.2 ∈ seen
    · rw [if_pos hseen]; exact ih seen
    · rw [if_neg hseen]
      rcases ih (keyOf p.2 :: seen) with ⟨hnd, hnotin⟩
      refine ⟨?_, ?_⟩
      · rw [List.map_cons, List.nodup_cons]
        refine ⟨?_, hnd⟩
        intro hc
        rcases List.mem_map.mp hc with ⟨q, hq, hqk⟩
        exact hnotin q hq (hqk ▸ List.mem_cons_self _ _)
      · intro q hq
        rcases List.mem_cons.mp hq with rfl | hq2
        · exact hseen
        · exact fun hc => hnotin q hq2 (List.mem_cons_of_mem _ hc)

theorem drop_duplicates_first_eq_self (l : Table)
    (hn : (l.map (fun p => keyOf p.2)).Nodup) :
    ∀ seen, (∀ p ∈ l, keyOf p.2 ∉ seen) →
    drop_duplicates_first seen l = l := by
  induction l with
  | nil => intro seen _; rfl
  | cons p t ih =>
    intro seen hdisj
    unfold drop_duplicates_first
    rw [if_neg (hdisj p (List.mem_cons_self _ _))]
    rw [List.map_cons, List.nodup_cons] at hn
    congr 1
    apply ih hn.2
    intro q hq hc
    rcases List.mem_cons.mp hc with h1 | h2
    · exact hn.1 (h1 ▸ List.mem_map_of_mem _ hq)
    · exact hdisj q (List.mem_cons_of_mem _ hq) h2

/-- Restricting the device duplicate rows to one device key whose group has
at least two rows gives back exactly that group. -/
theorem devDupRows_filter_key (df : Table) (h t : Nat)
    (hlen : 2 ≤ (df.filter (fun p => decide (keyOf p.2 = (h, t, 226732)))).length) :
    (devDupRows df).filter (fun p => decide (keyOf p.2 = (h, t, 226732))) =
      df.filter (fun p => decide (keyOf p.2 = (h, t, 226732))) := by
  unfold devDupRows
  rw [filter_swap]
  have h1 : (find_duplicates df).filter
      (fun p => decide (keyOf p.2 = (h, t, 226732))) =
      df.filter (fun p => decide (keyOf p.2 = (h, t, 226732))) :=
    dup_filter_restrict df (fun p => keyOf p.2) (h, t, 226732) hlen
  rw [h1]
  apply List.filter_eq_self.mpr
  intro p hp
  have hk := (List.mem_filter.mp hp).2
  rw [decide_eq_true_eq] at hk
  rw [decide_eq_true_eq]
  exact congrArg (fun k : Nat × Nat × Nat => k.2.2) hk

/-- C1: for a duplicate device-selector group — key (h, t, 226732) with at
least two rows, every row carrying a value mapped to a ranked category —
`duplicates_removed` keeps exactly one row of that key: the first row
attaining the minimal RESP_DEVICE_RANK index (ties broken by dataframe
order), with its `variable` column reassigned.  The second conjunct makes
the minimality explicit: every earlier group row ranks strictly worse and
every later one at least as bad. -/
theorem device_dedup_keeps_top_ranked (df : Table) (m : Nat → Option String)
    (dm : Dict) (out : Table) (h t i0 : Nat) (r0 : Event) (rk0 : Nat)
    (hnodup : (df.map Prod.fst).Nodup)
    (hlen : 2 ≤ (df.filter (fun p => decide (keyOf p.2 = (h, t, 226732)))).length)
    (hmapped : groupMapped dm
      (df.filter (fun p => decide (keyOf p.2 = (h, t, 226732)))) = true)
    (hmin : idxminTriple (groupRows (withRank dm (devDupRows df)) (h, t, 226732)) =
      some (i0, r0, rk0))
    (hok : duplicates_removed df m dm = Except.ok out) :
    out.filter (fun p => decide (keyOf p.2 = (h, t, 226732))) =
      [(i0, setVariable m r0)]
  ∧ ∃ A B, groupRows (withRank dm (devDupRows df)) (h, t, 226732) =
      A ++ (i0, r0, rk0) :: B
      ∧ (∀ u ∈ A, rk0 < u.2.2) ∧ (∀ u ∈ B, rk0 ≤ u.2.2) := by
  have hGK : groupRows (withRank dm (devDupRows df)) (h, t, 226732) =
      withRank dm (df.filter (fun p => decide (keyOf p.2 = (h, t, 226732)))) := by
    rw [groupRows_withRank, devDupRows_filter_key df h t hlen]
  have hmemGK : (i0, r0, rk0) ∈
      groupRows (withRank dm (devDupRows df)) (h, t, 226732) :=
    idxminTriple_mem hmin
  have hmem0 : (i0, r0, rk0) ∈
      withRank dm (df.filter (fun p => decide (keyOf p.2 = (h, t, 226732)))) :=
    hGK ▸ hmemGK
  have hir0 : (i0, r0) ∈ df.filter (fun p => decide (keyOf p.2 = (h, t, 226732))) :=
    withRank_mem_shape hmem0
  have hkey0 : keyOf r0 = (h, t, 226732) := by
    have hk := (List.mem_filter.mp hir0).2
    rw [decide_eq_true_eq] at hk
    exact hk
  have hdfnodup : df.Nodup := List.Nodup.of_map Prod.fst hnodup
  have hGnodup : (df.filter
      (fun p => decide (keyOf p.2 = (h, t, 226732)))).Nodup :=
    hdfnodup.filter _
  have hval0 : r0.value.isSome = true := by
    rcases groupMapped_catOf hmapped hir0 with ⟨u, hu, _⟩
    exact (catOf_some hu).2.2
  have htop : i0 ∈ topRankedIndices (withRank dm (devDupRows df)) := by
    unfold topRankedIndices
    apply List.mem_filterMap.mpr
    refine ⟨(h, t, 226732), List.mem_dedup.mpr ?_, by rw [hmin]; rfl⟩
    have hin : (i0, r0, rk0) ∈ withRank dm (devDupRows df) :=
      (List.mem_filter.mp hmemGK).1
    exact hkey0 ▸ List.mem_map_of_mem _ hin
  have hnotlow : i0 ∉ lowerRankedIndices (withRank dm (devDupRows df)) := by
    intro hc
    unfold lowerRankedIndices at hc
    have hc2 := (List.mem_filter.mp hc).2
    rw [decide_eq_true_eq] at hc2
    exact hc2 htop
  have hlow : ∀ p ∈ df.filter (fun p => decide (keyOf p.2 = (h, t, 226732))),
      p.1 ≠ i0 → p.1 ∈ lowerRankedIndices (withRank dm (devDupRows df)) := by
    intro p hp hne
    have hpdev : p ∈ devDupRows df := by
      have := devDupRows_filter_key df h t hlen
      rw [← this] at hp
      exact (List.mem_filter.mp hp).1
    apply List.mem_filter.mpr
    constructor
    · rcases groupMapped_catOf hmapped hp with ⟨u, hu, _⟩
      have hu1 : u.1 = p.1 := (catOf_some hu).1
      have hucat : u ∈ withCategory dm (devDupRows df) :=
        List.mem_filterMap.mpr ⟨p, hpdev, hu⟩
      have hgw : (u.1, u.2.1, List.indexOf (stripped u.2.2) RESP_DEVICE_RANK) ∈
          withRank dm (devDupRows df) := List.mem_map_of_mem _ hucat
      have := List.mem_map_of_mem
        (fun w : Nat × Event × Nat => w.1) hgw
      rw [hu1] at this
      exact this
    · rw [decide_eq_true_eq]
      intro hctop
      unfold topRankedIndices at hctop
      rcases List.mem_filterMap.mp hctop with ⟨k, _, hkeq⟩
      cases hmk : idxminTriple (groupRows (withRank dm (devDupRows df)) k) with
      | none => rw [hmk] at hkeq; cases hkeq
      | some w =>
        rw [hmk] at hkeq
        have hw1 : w.1 = p.1 := Option.some.inj hkeq
        have hwmem : w ∈ groupRows (withRank dm (devDupRows df)) k :=
          idxminTriple_mem hmk
        have hwwr : w ∈ withRank dm (devDupRows df) := (List.mem_filter.mp hwmem).1
        have hwkey : keyOf w.2.1 = k := by
          have hk := (List.mem_filter.mp hwmem).2
          rw [decide_eq_true_eq] at hk
          exact hk
        have hwdev : (w.1, w.2.1) ∈ devDupRows df := withRank_mem_shape hwwr
        have hwdf : (w.1, w.2.1) ∈ df := by
          unfold devDupRows find_duplicates at hwdev
          exact (List.filter_sublist df).subset
            ((List.filter_sublist _).subset hwdev)
        have hpdf : p ∈ df := (List.filter_sublist df).subset hp
        have hwp : (w.1, w.2.1) = p :=
          mem_of_indices_nodup hnodup hwdf hpdf (by rw [hw1])
        have hkK : k = (h, t, 226732) := by
          have hp2 : w.2.1 = p.2 := congrArg Prod.snd hwp
          have hpk := (List.mem_filter.mp hp).2
          rw [decide_eq_true_eq] at hpk
          rw [← hwkey, hp2]
          exact hpk
        rw [hkK, hmin] at hmk
        have : (i0, r0, rk0) = w := Option.some.inj hmk
        exact hne (by rw [← hw1, ← this])
  have e1 : (respClean1 df dm).filter
      (fun p => decide (keyOf p.2 = (h, t, 226732))) = [(i0, r0)] := by
    unfold respClean1
    rw [filter_swap]
    apply filter_eq_singleton hGnodup hir0
    · rw [decide_eq_true_eq]
      exact hnotlow
    · intro b hb hPb
      by_cases hbi : b.1 = i0
      · exact mem_of_indices_nodup hnodup ((List.filter_sublist df).subset hb)
          ((List.filter_sublist df).subset hir0) hbi
      · exfalso
        rw [decide_eq_true_eq] at hPb
        exact hPb (hlow b hb hbi)
  have e2 : (respClean2 df dm).filter
      (fun p => decide (keyOf p.2 = (h, t, 226732))) = [(i0, r0)] := by
    unfold respClean2
    rw [filter_swap, e1]
    simp [hval0]
  have hsetting : i0 ∉ settingDupIndices df dm := by
    intro hc
    unfold settingDupIndices at hc
    rcases List.mem_map.mp hc with ⟨q, hq, hq1⟩
    have hqfd : q ∈ find_duplicates (respClean2 df dm) := (List.mem_filter.mp hq).1
    have hqin : q ∈ respClean2 df dm := by
      unfold find_duplicates at hqfd
      exact (List.filter_sublist _).subset hqfd
    have hqdf : q ∈ df := by
      unfold respClean2 respClean1 at hqin
      exact (List.filter_sublist df).subset ((List.filter_sublist _).subset hqin)
    have hq_eq : q = (i0, r0) :=
      mem_of_indices_nodup hnodup hqdf ((List.filter_sublist df).subset hir0)
        (by rw [hq1])
    unfold find_duplicates at hqfd
    have hcnt := (List.mem_filter.mp hqfd).2
    rw [decide_eq_true_eq, List.countP_eq_length_filter] at hcnt
    rw [hq_eq] at hcnt
    have hpred : (fun q' : Nat × Event => decide (keyOf q'.2 = keyOf (i0, r0).2)) =
        (fun q' : Nat × Event => decide (keyOf q'.2 = (h, t, 226732))) := by
      funext q'
      rw [show keyOf (i0, r0).2 = (h, t, 226732) from hkey0]
    rw [hpred, e2] at hcnt
    simp at hcnt
  have e3 : (respClean3 df dm).filter
      (fun p => decide (keyOf p.2 = (h, t, 226732))) = [(i0, r0)] := by
    unfold respClean3
    rw [filter_swap, e2]
    simp [hsetting]
  have e4 : (respClean4 df dm).filter
      (fun p => decide (keyOf p.2 = (h, t, 226732))) = [(i0, r0)] := by
    unfold respClean4
    rw [drop_duplicates_first_filter_key]
    rw [if_neg (by intro hc; cases hc)]
    rw [e3]
    rfl
  unfold duplicates_removed at hok
  split at hok
  · split at hok
    · have hout : out = (respClean4 df dm).map
          (fun p => (p.1, setVariable m p.2)) := (Except.ok.inj hok).symm
      constructor
      · rw [hout, List.filter_map]
        have hcomp : ((fun p : Nat × Event => decide (keyOf p.2 = (h, t, 226732))) ∘
            (fun p : Nat × Event => (p.1, setVariable m p.2))) =
            (fun p : Nat × Event => decide (keyOf p.2 = (h, t, 226732))) := rfl
        rw [hcomp, e4]
        rfl
      · exact idxminTriple_spec _ _ hmin
    · cases hok
  · cases hok

/-- The Scenario A / P5 data: two duplicate device rows at (7, 5, 226732),
mapping to IMV (rank 0) and High Flow NC (rank 3). -/
def c1_dm : Dict :=
  [(some "Endotracheal tube", some "IMV"),
   (some "High flow nasal cannula", some "High Flow NC")]

def c1_m : Nat → Option String :=
  fun i => if i = 226732 then some "device_name" else none

def c1_df : Table :=
  [(0, ⟨7, 1, 5, 226732, some (Val.str "Endotracheal tube"), none⟩),
   (1, ⟨7, 1, 5, 226732, some (Val.str "High flow nasal cannula"), none⟩)]

def c1_out : Table :=
  [(0, ⟨7, 1, 5, 226732, some (Val.str "Endotracheal tube"), some "device_name"⟩)]

theorem device_dedup_keeps_top_ranked_witness :
    c1_out.filter (fun p => decide (keyOf p.2 = (7, 5, 226732))) =
      [(0, setVariable c1_m
        (⟨7, 1, 5, 226732, some (Val.str "Endotracheal tube"), none⟩ : Event))]
  ∧ ∃ A B, groupRows (withRank c1_dm (devDupRows c1_df)) (7, 5, 226732) =
      A ++ (0, (⟨7, 1, 5, 226732, some (Val.str "Endotracheal tube"), none⟩ : Event), 0) :: B
      ∧ (∀ u ∈ A, 0 < u.2.2) ∧ (∀ u ∈ B, 0 ≤ u.2.2) :=
  device_dedup_keeps_top_ranked c1_df c1_m c1_dm c1_out 7 5 0
    ⟨7, 1, 5, 226732, some (Val.str "Endotracheal tube"), none⟩ 0
    (by decide) (by decide) (by decide) (by decide) (by rfl)

/-! ### C9: both reconcilers are idempotent -/

theorem length_filter_key_le_one {df : Table}
    (hk : (df.map (fun p => keyOf p.2)).Nodup) (K : Nat × Nat × Nat) :
    (df.filter (fun q => decide (keyOf q.2 = K))).length ≤ 1 := by
  induction df with
  | nil => simp
  | cons p t ih =>
    rw [List.map_cons, List.nodup_cons] at hk
    rw [List.filter_cons]
    by_cases hp : keyOf p.2 = K
    · rw [if_pos (by simp [hp])]
      have hnil : t.filter (fun q => decide (keyOf q.2 = K)) = [] := by
        rw [List.filter_eq_nil_iff]
        intro q hq hdec
        rw [decide_eq_true_eq] at hdec
        exact hk.1 (by rw [hp, ← hdec]; exact List.mem_map_of_mem _ hq)
      rw [hnil]
      simp
    · rw [if_neg (by simp [hp])]
      exact ih hk.2

theorem find_duplicates_eq_nil {df : Table}
    (hk : (df.map (fun p => keyOf p.2)).Nodup) :
    find_duplicates df = [] := by
  unfold find_duplicates
  rw [List.filter_eq_nil_iff]
  intro p hp
  rw [decide_eq_true_eq, List.countP_eq_length_filter]
  have := length_filter_key_le_one hk (keyOf p.2)
  omega

theorem drop_shorter_idem (g : MacTable) :
    drop_shorter_action_name (drop_shorter_action_name g) =
    drop_shorter_action_name g := by
  match g with
  | [] => rfl
  | [p] => rfl
  | p :: q :: r :: rest => rfl
  | [p, q] =>
    have heq : drop_shorter_action_name [p, q] =
        (if are_doses_close p.2.med_dose q.2.med_dose then
          (if q.2.mar_action_name.length > p.2.mar_action_name.length
           then [q] else [p])
         else [p, q]) := rfl
    rw [heq]
    by_cases hc : are_doses_close p.2.med_dose q.2.med_dose = true
    · rw [if_pos hc]
      by_cases hl : q.2.mar_action_name.length > p.2.mar_action_name.length
      · rw [if_pos hl]
        rfl
      · rw [if_neg hl]
        rfl
    · rw [if_neg hc, heq, if_neg hc]

/-- C9: re-running `duplicates_removed` on its own output returns the output
unchanged, and `drop_shorter_action_name` applied to a group it has already
reduced returns that group unchanged (it is idempotent on every group). -/
theorem reconcilers_idempotent :
    (∀ (df : Table) (m : Nat → Option String) (dm : Dict) (out : Table),
      duplicates_removed df m dm = Except.ok out →
      duplicates_removed out m dm = Except.ok out)
  ∧ (∀ g : MacTable, drop_shorter_action_name (drop_shorter_action_name g) =
      drop_shorter_action_name g) := by
  refine ⟨?_, drop_shorter_idem⟩
  intro df m dm out hok
  unfold duplicates_removed at hok
  split at hok
  · split at hok
    · have hout : out = (respClean4 df dm).map
          (fun p => (p.1, setVariable m p.2)) := (Except.ok.inj hok).symm
      have hkeys : (out.map (fun p => keyOf p.2)).Nodup := by
        rw [hout, List.map_map]
        exact (drop_duplicates_first_keys (respClean3 df dm) []).1
      have hvals : ∀ p ∈ out, p.2.value.isSome = true := by
        intro p hp
        rw [hout] at hp
        rcases List.mem_map.mp hp with ⟨q, hq, rfl⟩
        have hq3 : q ∈ respClean3 df dm :=
          (drop_duplicates_first_sublist (respClean3 df dm) []).subset hq
        have hq2 : q ∈ respClean2 df dm := by
          unfold respClean3 at hq3
          exact (List.filter_sublist _).subset hq3
        unfold respClean2 at hq2
        exact (List.mem_filter.mp hq2).2
      have hfd : find_duplicates out = [] := find_duplicates_eq_nil hkeys
      have hdev : devDupRows out = [] := by
        unfold devDupRows
        rw [hfd]
        rfl
      have hc1 : respClean1 out dm = out := by
        unfold respClean1
        rw [hdev]
        have hlow0 : lowerRankedIndices (withRank dm []) = [] := rfl
        rw [hlow0]
        apply List.filter_eq_self.mpr
        intro p _
        simp
      have hc2 : respClean2 out dm = out := by
        unfold respClean2
        rw [hc1]
        exact List.filter_eq_self.mpr hvals
      have hset : settingDupIndices out dm = [] := by
        unfold settingDupIndices
        rw [hc2, hfd]
        rfl
      have hc3 : respClean3 out dm = out := by
        unfold respClean3
        rw [hc2, hset]
        apply List.filter_eq_self.mpr
        intro p _
        simp
      have hc4 : respClean4 out dm = out := by
        unfold respClean4
        rw [hc3]
        exact drop_duplicates_first_eq_self out hkeys []
          (by intro p _ hc; cases hc)
      have hmapf : out.map (fun p => (p.1, setVariable m p.2)) = out := by
        rw [hout, List.map_map]
        rfl
      unfold duplicates_removed
      rw [hdev]
      rw [if_pos (show deviceApplyOk dm [] = true from rfl)]
      rw [if_pos (show rankApplyOk (withCategory dm []) = true from rfl)]
      rw [hc4, hmapf]
    · cases hok
  · cases hok

/-- A single-row table for the C9 witness (its dedup output is itself). -/
def c9_df : Table := [(0, ⟨1, 1, 2, 220339, some (Val.str "5"), none⟩)]

theorem reconcilers_idempotent_witness :
    duplicates_removed c9_df (fun _ => none) [] = Except.ok c9_df
  ∧ drop_shorter_action_name (drop_shorter_action_name
      [(0, scenarioB_r1), (1, scenarioB_r2)]) =
    drop_shorter_action_name [(0, scenarioB_r1), (1, scenarioB_r2)] :=
  ⟨reconcilers_idempotent.1 c9_df (fun _ => none) [] c9_df (by rfl),
   reconcilers_idempotent.2 [(0, scenarioB_r1), (1, scenarioB_r2)]⟩
